import Mathlib

/-!
Verification development for the slidekick backend (agentic-duo repository).

Shallow embedding of the session-scoped components of the backend:

* `StateManager` (src/backend/src/slidekick/state_manager.py): navigation
  state with `navigate`, `set_current_slide`, `set_total_slides`, `reset`.
* The transcript ring buffer of the Session State Store (called by
  `main.py` and exercised by the repository test suite, but absent from
  `state_manager.py`; modelled from the specification).
* `WebSocketAudioProcessor` (src/backend/src/slidekick/audio_processor.py):
  bounded audio queue with drop-oldest overflow, `push_audio`, `stop`,
  and the queue consumer `get_audio`.
* `ToolExecutor` (src/backend/src/slidekick/tool_executor.py):
  registry lookup and `execute_tool` error wrapping.
* `SlideTools.navigate_slide` (src/backend/src/slidekick/slide_tools.py)
  and the 1-based `navigate_slide_wrapper` of `main.py`.
* The interruption gate discipline of `process_tool_calls` in `main.py`.

Python integers are modelled as `Int`; navigation directions stay strings,
as in the source; a raised `ValueError` is modelled as `Except.error`
carrying the exception's message text.
-/

/-! ## StateManager (state_manager.py) -/

/-- Navigation state of `StateManager`: `current_slide` and `total_slides`.
The session metadata and the lock are irrelevant to the navigation claims
and are not modelled; all operations run under the single lock, so they
are embedded as sequential state transformers. -/
structure SMState where
  current : Int
  total : Int
deriving DecidableEq

/-- Embedding of `StateManager.__init__(total_slides)`: `current_slide = 0`,
`total_slides` stored as given (the constructor does not clamp). -/
def initStateManager (totalSlides : Int) : SMState :=
  { current := 0, total := totalSlides }

/-- Embedding of `StateManager.navigate(direction, index)`.  Returns the new index and
the updated state, or the message of the raised `ValueError`.  The state
mutation `self.current_slide = new_index` happens only after the whole
`if`-chain, so on a raised error the state is unchanged (no state is
produced here). -/
def navigate (s : SMState) (direction : String) (index : Option Int) :
    Except String (Int × SMState) :=
  if direction = "next" then
    let newIndex := if s.total > 0 then min (s.current + 1) (s.total - 1)
      else s.current + 1
    Except.ok (newIndex, { s with current := newIndex })
  else if direction = "prev" then
    let newIndex := max (s.current - 1) 0
    Except.ok (newIndex, { s with current := newIndex })
  else if direction = "jump" then
    match index with
    | none => Except.error "Index required for \x27jump\x27 navigation"
    | some i =>
      let bounded := max 0 i
      let newIndex := if s.total > 0 then min bounded (s.total - 1) else bounded
      Except.ok (newIndex, { s with current := newIndex })
  else
    Except.error ("Invalid direction: " ++ direction)

/-- Embedding of `StateManager.set_current_slide(index)`: clamps negatives to zero. -/
def setCurrentSlide (s : SMState) (index : Int) : SMState :=
  { s with current := max 0 index }

/-- Embedding of `StateManager.set_total_slides(total)`: clamps negatives to zero. -/
def setTotalSlides (s : SMState) (total : Int) : SMState :=
  { s with total := max 0 total }

/-- Embedding of `StateManager.reset()`: slide position back to 0; `total_slides` is
not touched by `reset` in the source. -/
def resetState (s : SMState) : SMState :=
  { s with current := 0 }

/-- The state reached after a `navigate` call, a raised error leaving the
state unchanged (the exception fires before the mutation). -/
def navStep (s : SMState) (direction : String) (index : Option Int) : SMState :=
  match navigate s direction index with
  | Except.ok r => r.2
  | Except.error _ => s

/-- One mutating operation of the Session State Store. -/
inductive SMOp where
  | nav (direction : String) (index : Option Int)
  | setCur (index : Int)
  | setTot (total : Int)
  | reset
deriving DecidableEq

/-- Effect of one operation on the navigation state. -/
def smStep (s : SMState) (op : SMOp) : SMState :=
  match op with
  | SMOp.nav d i => navStep s d i
  | SMOp.setCur i => setCurrentSlide s i
  | SMOp.setTot t => setTotalSlides s t
  | SMOp.reset => resetState s

/-- State after a sequence of operations. -/
def runOps (s : SMState) (ops : List SMOp) : SMState :=
  ops.foldl smStep s

/-- The NavigationState invariant of the specification: when
`total_slides > 0`, `0 ≤ current_slide ≤ total_slides - 1`; when
`total_slides = 0`, only `current_slide ≥ 0`. -/
def navInv (s : SMState) : Prop :=
  (0 < s.total → 0 ≤ s.current ∧ s.current ≤ s.total - 1) ∧
    (s.total = 0 → 0 ≤ s.current)

instance (s : SMState) : Decidable (navInv s) := by
  unfold navInv; infer_instance

/-- Operations that do not bypass the invariant: `navigate` and `reset`
(the two setters trust the frontend and clamp only negatives). -/
def SMOp.isNavOrReset : SMOp → Bool
  | SMOp.nav _ _ => true
  | SMOp.reset => true
  | SMOp.setCur _ => false
  | SMOp.setTot _ => false

/-! ## Transcript buffer (Session State Store)

`add_transcript` / `get_transcript` / `transcript_history` are called by
`main.py` and exercised by `tests/test_state_manager.py`, but the methods
are absent from `state_manager.py` itself; they are modelled from the
specification below. -/

/-- Modelled from the spec: `StateManager.add_transcript(text)` is missing
from `state_manager.py` (only its callers in `main.py` and the repository
tests mention it).  Per the spec it "appends; evicts oldest entries beyond
the 100-entry cap" on the insertion-ordered transcript buffer. -/
def addTranscript (history : List String) (text : String) : List String :=
  let h := history ++ [text]
  h.drop (h.length - 100)

/-- Modelled from the spec: `StateManager.get_transcript()` is missing
from `state_manager.py`.  Per the spec the entries are "concatenated with
newline separators on read". -/
def getTranscript (history : List String) : String :=
  String.intercalate "\n" history

/-- Transcript buffer after appending a list of entries to an initially
empty buffer. -/
def runTranscript (entries : List String) : List String :=
  entries.foldl addTranscript []

/-! ## WebSocketAudioProcessor (audio_processor.py)

The bounded audio queue is `asyncio.Queue(maxsize)`; its `full()` is false
when `maxsize ≤ 0` and otherwise `qsize() ≥ maxsize`.  `push_audio` never
suspends: when the queue is full it first removes the oldest chunk with
`get_nowait()`, so the following `put` finds room. -/

/-- An audio message as produced by `package_audio`: payload bytes plus
the fixed MIME tag `audio/pcm`. -/
structure AudioMsg where
  data : List Nat
  mimeType : String
deriving DecidableEq

/-- Embedding of `AudioProcessor.package_audio(data)`. -/
def packageAudioMsg (data : List Nat) : AudioMsg :=
  { data := data, mimeType := "audio/pcm" }

/-- State of a `WebSocketAudioProcessor`: running flag, the queue contents
(front of the list = oldest chunk), the queue capacity, and the chunk
counter. -/
structure WSAudioState where
  running : Bool
  queue : List AudioMsg
  maxsize : Nat
  chunkCount : Nat
deriving DecidableEq

/-- Embedding of `AudioProcessor.from_websocket(queue_maxsize)`: fresh processor, not
yet running, empty queue. -/
def fromWebsocket (queueMaxsize : Nat) : WSAudioState :=
  { running := false, queue := [], maxsize := queueMaxsize, chunkCount := 0 }

/-- Embedding of `asyncio.Queue.full()`: false when `maxsize ≤ 0`, else
`qsize() ≥ maxsize`. -/
def queueFull (maxsize : Nat) (q : List AudioMsg) : Bool :=
  0 < maxsize && maxsize ≤ q.length

/-- Embedding of `WebSocketAudioProcessor.start()`: idempotent; sets the running flag
and resets the chunk counter. -/
def startProcessor (s : WSAudioState) : WSAudioState :=
  if s.running then s else { s with running := true, chunkCount := 0 }

/-- Embedding of `WebSocketAudioProcessor.stop()`: clears the running flag and drains
every chunk left in the queue with `get_nowait()`.  Nothing is closed:
`asyncio.Queue` carries no closed flag and none is modelled. -/
def stopProcessor (s : WSAudioState) : WSAudioState :=
  { s with running := false, queue := [] }

/-- Embedding of `WebSocketAudioProcessor.push_audio(data)`: returns `False` when the
processor is stopped; otherwise evicts the oldest chunk when the queue is
full (`get_nowait`, a no-op on an empty queue matching the swallowed
`QueueEmpty`), enqueues the packaged chunk, bumps the counter and returns
`True`.  No path of the body raises, so the `except` branch returning
`False` is unreachable and not modelled. -/
def pushAudioChunk (s : WSAudioState) (data : List Nat) : Bool × WSAudioState :=
  if s.running = false then (false, s)
  else
    let msg := packageAudioMsg data
    let q := if queueFull s.maxsize s.queue then s.queue.drop 1 else s.queue
    (true, { s with queue := q ++ [msg], chunkCount := s.chunkCount + 1 })

/-- Processor state after a sequence of `push_audio` calls. -/
def pushAll (s : WSAudioState) (chunks : List (List Nat)) : WSAudioState :=
  chunks.foldl (fun t d => (pushAudioChunk t d).2) s

/-- Outcome of `get_audio` (an `await audio_queue.get()`): the oldest
chunk when one is queued, otherwise the caller suspends.  The
`closedError` outcome exists so the specification's queue-closed contract
can be stated; the source has no closed condition, so the embedding never
produces it. -/
inductive PopOutcome where
  | chunk (m : AudioMsg) (rest : WSAudioState)
  | suspend
  | closedError
deriving DecidableEq

/-- Embedding of `AudioProcessor.get_audio()` as a single observation step on the
queue. -/
def getAudioOutcome (s : WSAudioState) : PopOutcome :=
  match s.queue with
  | [] => PopOutcome.suspend
  | m :: rest => PopOutcome.chunk m { s with queue := rest }

/-! ## ToolExecutor (tool_executor.py) -/

/-- The `response` payload of the `FunctionResponse` built by
`execute_tool`, together with the echoed call id and name.  `β` is the
type of the handler's return value (`data`). -/
structure FunctionResponseModel (β : Type) where
  id : String
  name : String
  status : String
  error : Option String
  data : Option β
deriving DecidableEq

/-- A registered handler: maps the call arguments to a return value or to
the message of a raised exception.  The registry itself is the
association list `tools` (a Python dict keyed by tool name). -/
def ToolRegistry (α β : Type) := List (String × (α → Except String β))

/-- Embedding of `ToolExecutor.has_tool(name)`. -/
def hasTool {α β : Type} (tools : ToolRegistry α β) (name : String) : Bool :=
  (tools.lookup name).isSome

/-- Embedding of `ToolExecutor.execute_tool(func_name, func_id, args)`: unknown names
produce a status-`error` response; a handler's raised exception `e` is
wrapped in `ToolExecutorError(f"Error executing tool function
'{func_name}': {e}")`, whose `str` is exactly that message; a normal
return goes out verbatim under status `success`.  The function is total:
no path propagates a fault to the caller. -/
def executeTool {α β : Type} (tools : ToolRegistry α β) (funcName funcId : String)
    (args : α) : FunctionResponseModel β :=
  match List.lookup funcName tools with
  | none =>
    { id := funcId, name := funcName, status := "error",
      error := some ("Unknown tool function requested: \x27" ++ funcName ++
        "\x27 is not registered."),
      data := none }
  | some f =>
    match f args with
    | Except.ok result =>
      { id := funcId, name := funcName, status := "success",
        error := none, data := some result }
    | Except.error e =>
      { id := funcId, name := funcName, status := "error",
        error := some ("Error executing tool function \x27" ++ funcName ++
          "\x27: " ++ e),
        data := none }

/-! ## SlideTools.navigate_slide and the 1-based wrapper (slide_tools.py, main.py) -/

/-- The dict returned by `SlideTools.navigate_slide`. -/
structure NavigateResult where
  action : String
  direction : Option String
  currentSlide : Option Int
  totalSlides : Option Int
  success : Bool
  error : Option String
deriving DecidableEq

/-- Embedding of `SlideTools.navigate_slide(direction, index)`: delegates to
`StateManager.navigate`, reads back `total_slides`, and converts a raised
error into a `success: False` dict, leaving the state unchanged. -/
def navigateSlide (s : SMState) (direction : String) (index : Option Int) :
    NavigateResult × SMState :=
  match navigate s direction index with
  | Except.ok r =>
    ({ action := "navigate", direction := some direction,
       currentSlide := some r.1, totalSlides := some r.2.total,
       success := true, error := none }, r.2)
  | Except.error e =>
    ({ action := "navigate", direction := none, currentSlide := none,
       totalSlides := none, success := false, error := some e }, s)

/-- Embedding of `navigate_slide_wrapper` of `main.py`: for a `jump` with a supplied
index the 1-based LLM index is converted to the 0-based backend index
`max(0, index - 1)`; every other call passes through unchanged. -/
def navigateSlideWrapper (s : SMState) (direction : String)
    (index : Option Int) : NavigateResult × SMState :=
  if direction = "jump" then
    match index with
    | some i => navigateSlide s direction (some (max 0 (i - 1)))
    | none => navigateSlide s direction none
  else
    navigateSlide s direction index

/-! ## Interruption gate of process_tool_calls (main.py)

`process_tool_calls` clears the `allow_interruption` event on entry, runs
the batch inside `try`, and re-sets the event in `finally`.  Within the
body: `executor.execute_tool` and `safe_send_json` never raise, the
per-call result processing sits in its own swallowed `try`/`except`, and
`session.send_tool_response` may raise; an exception at any unprotected
point propagates to the `finally`.  The gate is a `Bool`
(`true` = event set = open). -/

/-- Whether a simulated step finishes normally or raises. -/
inductive StepOutcome where
  | ok
  | raise (msg : String)
deriving DecidableEq

/-- One Gemini function call of a batch, with the outcome of its
execution step and of its result-processing step. -/
structure ToolCallSim where
  execStep : StepOutcome
  resultStep : StepOutcome
deriving DecidableEq

/-- The `try` body of `process_tool_calls`: iterate the calls, recording
the gate value each execution observes; a raising execution step
propagates (aborting the loop), a raising result-processing step is
swallowed by the inner `except`; finally the tool responses are sent,
which may itself raise. -/
def runToolCallBody (gate : Bool) (sendStep : StepOutcome) :
    List ToolCallSim → List Bool × Except String Unit
  | [] =>
    match sendStep with
    | StepOutcome.ok => ([], Except.ok ())
    | StepOutcome.raise m => ([], Except.error m)
  | c :: cs =>
    match c.execStep with
    | StepOutcome.raise m => ([gate], Except.error m)
    | StepOutcome.ok =>
      let r := runToolCallBody gate sendStep cs
      (gate :: r.1, r.2)

/-- Embedding of `process_tool_calls`: clear the gate, run the body under `try`, and
re-set the gate in `finally` whatever the body's outcome.  Returns the
gate values observed by the executions, the final gate value, and the
propagated outcome. -/
def processToolCalls (gateBefore : Bool) (calls : List ToolCallSim)
    (sendStep : StepOutcome) : List Bool × Bool × Except String Unit :=
  let _ := gateBefore
  let gateClosed := false
  let body := runToolCallBody gateClosed sendStep calls
  (body.1, true, body.2)

/-! ## Theorems -/

/-- Helper: folding a capped append step over a list keeps exactly the
last `cap` mapped elements.  Shared by the transcript-buffer and
audio-queue results. -/
lemma foldl_drop_cap {α β : Type} (cap : Nat) (f : List α → β → List α) (g : β → α)
    (hf : ∀ (acc : List α) (b : β), acc.length ≤ cap →
      f acc b = (acc ++ [g b]).drop (acc.length + 1 - cap)) :
    ∀ (ds : List β) (acc : List α), acc.length ≤ cap →
      List.foldl f acc ds = (acc ++ ds.map g).drop (acc.length + ds.length - cap) := by
  intro ds
  induction ds with
  | nil =>
    intro acc h
    simp [Nat.sub_eq_zero_of_le h]
  | cons d ds ih =>
    intro acc h
    rw [List.foldl_cons, hf acc d h]
    have hlen : ((acc ++ [g d]).drop (acc.length + 1 - cap)).length ≤ cap := by
      simp [List.length_drop, List.length_append]
      omega
    rw [ih _ hlen]
    have h1 : acc.length + 1 - cap ≤ (acc ++ [g d]).length := by
      simp
    rw [← List.drop_append_of_le_length h1, List.drop_drop]
    have h2 : (acc ++ [g d]) ++ List.map g ds = acc ++ List.map g (d :: ds) := by
      simp
    rw [h2]
    congr 1
    simp [List.length_drop, List.length_append]
    omega

/-- Claim C1: for every sequence of `add_transcript(text)` calls on a
fresh transcript buffer, the buffer holds at most the 100 most recently
added entries in insertion order (oldest evicted first), and
`get_transcript` returns those entries joined by newlines; for a
150-entry sequence the buffer is exactly entries 51..150. -/
theorem C1_transcript_buffer (entries : List String) :
    runTranscript entries = entries.drop (entries.length - 100) ∧
    (runTranscript entries).length ≤ 100 ∧
    getTranscript (runTranscript entries) =
      String.intercalate "\n" (entries.drop (entries.length - 100)) ∧
    (entries.length = 150 → runTranscript entries = entries.drop 50) := by
  have hf : ∀ (acc : List String) (b : String), acc.length ≤ 100 →
      addTranscript acc b = (acc ++ [b]).drop (acc.length + 1 - 100) := by
    intro acc b _
    simp [addTranscript]
  have h := foldl_drop_cap 100 addTranscript id hf entries [] (by simp)
  have hmain : runTranscript entries = entries.drop (entries.length - 100) := by
    simpa [runTranscript] using h
  refine ⟨hmain, ?_, ?_, ?_⟩
  · rw [hmain]
    simp [List.length_drop]
    omega
  · rw [hmain]
    rfl
  · intro h150
    rw [hmain, h150]

/-- Witness for C1 at a concrete 150-entry sequence. -/
theorem C1_transcript_buffer_witness :
    ((List.range 150).map (fun n => toString n)).length = 150 ∧
    runTranscript ((List.range 150).map (fun n => toString n)) =
      ((List.range 150).map (fun n => toString n)).drop 50 :=
  ⟨by simp, (C1_transcript_buffer ((List.range 150).map (fun n => toString n))).2.2.2
    (by simp)⟩

/-- Helper: effect of a `push_audio` sequence on a running processor. -/
lemma pushAll_state (ds : List (List Nat)) :
    ∀ (s : WSAudioState), s.running = true →
      pushAll s ds = { s with
        queue := ds.foldl
          (fun q d => (if queueFull s.maxsize q then q.drop 1 else q) ++
            [packageAudioMsg d]) s.queue,
        chunkCount := s.chunkCount + ds.length } := by
  induction ds with
  | nil =>
    intro s hs
    simp [pushAll]
  | cons d ds ih =>
    intro s hs
    have hstep : (pushAudioChunk s d).2 = { s with
        queue := (if queueFull s.maxsize s.queue then s.queue.drop 1 else s.queue) ++
          [packageAudioMsg d],
        chunkCount := s.chunkCount + 1 } := by
      simp [pushAudioChunk, hs]
    have hrun : (pushAudioChunk s d).2.running = true := by
      rw [hstep]
      exact hs
    have h1 : pushAll s (d :: ds) = pushAll (pushAudioChunk s d).2 ds := by
      simp [pushAll, List.foldl_cons]
    rw [h1, ih _ hrun, hstep]
    simp [List.foldl_cons]
    omega

/-- Helper: on a queue within capacity `k ≥ 1`, one evict-then-append
step keeps exactly the last `k` chunks. -/
lemma qstep_cap (k : Nat) (hk : 1 ≤ k) :
    ∀ (q : List AudioMsg) (d : List Nat), q.length ≤ k →
      (if queueFull k q then q.drop 1 else q) ++ [packageAudioMsg d] =
        (q ++ [packageAudioMsg d]).drop (q.length + 1 - k) := by
  intro q d h
  by_cases hfull : queueFull k q = true
  · have hlen : q.length = k := by
      simp [queueFull] at hfull
      omega
    have h1 : (1 : Nat) ≤ q.length := by omega
    have hidx : q.length + 1 - k = 1 := by omega
    rw [hidx, List.drop_append_of_le_length h1]
    simp [hfull]
  · have hidx : q.length + 1 - k = 0 := by
      simp [queueFull] at hfull
      omega
    rw [hidx, List.drop_zero]
    simp at hfull
    simp [hfull]

/-- Claim C4: on a running `WebSocketAudioProcessor` with capacity
`k ≥ 1`, `push_audio` always reports success and bumps the chunk counter;
when the queue is full exactly the single oldest chunk is evicted before
the new one is enqueued; after any sequence of pushes on a freshly
started processor exactly the `min(n, k)` most recent chunks remain in
FIFO order, the queue never exceeds `k` chunks, and the counter equals
the number of pushes. -/
theorem C4_push_audio (k : Nat) (hk : 1 ≤ k) (ds : List (List Nat)) :
    (∀ (s : WSAudioState) (d : List Nat), s.running = true →
      (pushAudioChunk s d).1 = true ∧
      (pushAudioChunk s d).2.chunkCount = s.chunkCount + 1) ∧
    (∀ (s : WSAudioState) (d : List Nat), s.running = true → s.maxsize = k →
      s.queue.length = k →
      (pushAudioChunk s d).2.queue = s.queue.drop 1 ++ [packageAudioMsg d]) ∧
    (pushAll (startProcessor (fromWebsocket k)) ds).queue =
      (ds.map packageAudioMsg).drop (ds.length - k) ∧
    (pushAll (startProcessor (fromWebsocket k)) ds).queue.length ≤ k ∧
    (pushAll (startProcessor (fromWebsocket k)) ds).chunkCount = ds.length := by
  have hs0 : startProcessor (fromWebsocket k) =
      { running := true, queue := [], maxsize := k, chunkCount := 0 } := by
    simp [startProcessor, fromWebsocket]
  have hchar := pushAll_state ds (startProcessor (fromWebsocket k)) (by rw [hs0])
  have hfold := foldl_drop_cap k
    (fun q d => (if queueFull k q then q.drop 1 else q) ++ [packageAudioMsg d])
    packageAudioMsg (qstep_cap k hk) ds [] (by simp)
  have hqueue : (pushAll (startProcessor (fromWebsocket k)) ds).queue =
      (ds.map packageAudioMsg).drop (ds.length - k) := by
    rw [hchar, hs0]
    simpa using hfold
  refine ⟨?_, ?_, hqueue, ?_, ?_⟩
  · intro s d hrun
    simp [pushAudioChunk, hrun]
  · intro s d hrun hmax hlen
    have hfull : queueFull s.maxsize s.queue = true := by
      simp [queueFull, hmax, hlen]
      omega
    simp [pushAudioChunk, hrun, hfull]
  · rw [hqueue]
    simp [List.length_drop]
    omega
  · rw [hchar, hs0]
    simp

/-- Witness for C4: capacity 2, three pushes, plus one direct push. -/
theorem C4_push_audio_witness :
    (1 : Nat) ≤ 2 ∧
    (pushAll (startProcessor (fromWebsocket 2)) [[1], [2], [3]]).queue =
      ([[1], [2], [3]].map packageAudioMsg).drop 1 ∧
    (pushAll (startProcessor (fromWebsocket 2)) [[1], [2], [3]]).chunkCount = 3 ∧
    (pushAudioChunk (startProcessor (fromWebsocket 2)) [9]).1 = true :=
  ⟨by decide,
   (C4_push_audio 2 (by decide) [[1], [2], [3]]).2.2.1,
   (C4_push_audio 2 (by decide) [[1], [2], [3]]).2.2.2.2,
   ((C4_push_audio 2 (by decide) []).1 (startProcessor (fromWebsocket 2)) [9]
     (by rfl)).1⟩

/-- Helper: `navigate` preserves the NavigationState invariant (a raised
error leaves the state unchanged). -/
lemma navStep_preserves (s : SMState) (d : String) (i : Option Int)
    (h : navInv s) : navInv (navStep s d i) := by
  unfold navInv at h ⊢
  by_cases h1 : d = "next"
  · subst h1
    simp [navStep, navigate]
    split_ifs with ht
    · omega
    · omega
  · by_cases h2 : d = "prev"
    · subst h2
      simp [navStep, navigate]
      omega
    · by_cases h3 : d = "jump"
      · subst h3
        cases i with
        | none => simp [navStep, navigate]; exact h
        | some j =>
          simp [navStep, navigate]
          split_ifs with ht
          · omega
          · omega
      · simp [navStep, navigate, h1, h2, h3]
        exact h

/-- Helper: `reset` preserves the NavigationState invariant. -/
lemma resetState_preserves (s : SMState) (_h : navInv s) :
    navInv (resetState s) := by
  unfold navInv
  simp [resetState]
  omega

/-- Helper: any sequence of `navigate`/`reset` operations keeps the
invariant. -/
lemma runOps_nav_reset_inv : ∀ (ops : List SMOp) (s : SMState), navInv s →
    (∀ op ∈ ops, op.isNavOrReset = true) → navInv (runOps s ops) := by
  intro ops
  induction ops with
  | nil =>
    intro s hs _
    simpa [runOps] using hs
  | cons op ops ih =>
    intro s hs hops
    have h1 : op.isNavOrReset = true := hops op (by simp)
    have hstep : navInv (smStep s op) := by
      cases op with
      | nav d i => exact navStep_preserves s d i hs
      | reset => exact resetState_preserves s hs
      | setCur i => simp [SMOp.isNavOrReset] at h1
      | setTot t => simp [SMOp.isNavOrReset] at h1
    have hrest : ∀ o ∈ ops, o.isNavOrReset = true := by
      intro o ho
      exact hops o (by simp [ho])
    have := ih (smStep s op) hstep hrest
    simpa [runOps, List.foldl_cons] using this

/-- Counterexample to claim C2 as stated: from the initial state, the
reachable operation sequence `set_total_slides(10); set_current_slide(20)`
leaves `current_slide = 20 > total_slides - 1 = 9`, violating the
invariant — `set_current_slide` clamps only negative inputs. -/
theorem C2_counterexample :
    ¬ navInv (runOps (initStateManager 0) [SMOp.setTot 10, SMOp.setCur 20]) := by
  decide

/-- Amended claim C2: `navigate` and `reset` preserve the NavigationState
invariant — every state reached from an invariant-satisfying state by a
sequence of such operations satisfies it — while `set_current_slide` and
`set_total_slides` clamp only negative inputs, guaranteeing just the
lower bounds `current_slide ≥ 0` and `total_slides ≥ 0`. -/
theorem C2_invariant_amended (s : SMState) (ops : List SMOp)
    (hs : navInv s) (hops : ∀ op ∈ ops, op.isNavOrReset = true) :
    navInv (runOps s ops) ∧
    (∀ (t : SMState) (i n : Int),
      0 ≤ (setCurrentSlide t i).current ∧ 0 ≤ (setTotalSlides t n).total) := by
  refine ⟨runOps_nav_reset_inv ops s hs hops, ?_⟩
  intro t i n
  constructor
  · simp [setCurrentSlide]
  · simp [setTotalSlides]

/-- Witness for the amended C2 on a concrete operation sequence. -/
theorem C2_invariant_amended_witness :
    navInv { current := 0, total := 3 } ∧
    (∀ op ∈ [SMOp.nav "next" none, SMOp.reset, SMOp.nav "jump" (some 5)],
      op.isNavOrReset = true) ∧
    navInv (runOps { current := 0, total := 3 }
      [SMOp.nav "next" none, SMOp.reset, SMOp.nav "jump" (some 5)]) :=
  ⟨by decide, by decide,
   (C2_invariant_amended { current := 0, total := 3 }
     [SMOp.nav "next" none, SMOp.reset, SMOp.nav "jump" (some 5)]
     (by decide) (by decide)).1⟩

/-- Claim C3: `navigate` computes `next` as `min(current+1, total-1)` when
`total_slides > 0` and `current+1` when `total_slides = 0`; `prev` as
`max(current-1, 0)`; `jump i` as `min(max(0,i), total-1)` when
`total_slides > 0` and `max(0,i)` otherwise; `current_slide` is updated to
the returned value; the spec scenarios at `total=10` hold. -/
theorem C3_navigate_formulas (s : SMState) (i : Int) :
    (0 < s.total →
      navigate s "next" none = Except.ok (min (s.current + 1) (s.total - 1),
        { s with current := min (s.current + 1) (s.total - 1) })) ∧
    (s.total = 0 →
      navigate s "next" none = Except.ok (s.current + 1,
        { s with current := s.current + 1 })) ∧
    navigate s "prev" none = Except.ok (max (s.current - 1) 0,
      { s with current := max (s.current - 1) 0 }) ∧
    (0 < s.total →
      navigate s "jump" (some i) = Except.ok (min (max 0 i) (s.total - 1),
        { s with current := min (max 0 i) (s.total - 1) })) ∧
    (s.total = 0 →
      navigate s "jump" (some i) = Except.ok (max 0 i,
        { s with current := max 0 i })) ∧
    navigate { current := 9, total := 10 } "next" none =
      Except.ok (9, { current := 9, total := 10 }) ∧
    navigate { current := 0, total := 10 } "prev" none =
      Except.ok (0, { current := 0, total := 10 }) ∧
    navigate { current := 9, total := 10 } "jump" (some 100) =
      Except.ok (9, { current := 9, total := 10 }) ∧
    navigate { current := 9, total := 10 } "jump" (some (-5)) =
      Except.ok (0, { current := 0, total := 10 }) := by
  refine ⟨?_, ?_, ?_, ?_, ?_, by rfl, by rfl, by rfl, by rfl⟩
  · intro ht
    simp [navigate, ht]
  · intro ht
    simp [navigate, ht]
  · simp [navigate]
  · intro ht
    simp [navigate, ht]
  · intro ht
    simp [navigate, ht]

/-- Witness for C3 on concrete states with known and unknown slide
counts. -/
theorem C3_navigate_formulas_witness :
    (0 < ({ current := 3, total := 10 } : SMState).total ∧
      navigate { current := 3, total := 10 } "next" none =
        Except.ok (min (3 + 1) (10 - 1),
          { current := min (3 + 1) (10 - 1), total := 10 })) ∧
    (({ current := 7, total := 0 } : SMState).total = 0 ∧
      navigate { current := 7, total := 0 } "next" none =
        Except.ok (7 + 1, { current := 7 + 1, total := 0 })) :=
  ⟨⟨by decide,
    (C3_navigate_formulas { current := 3, total := 10 } 0).1 (by decide)⟩,
   ⟨rfl,
    (C3_navigate_formulas { current := 7, total := 0 } 0).2.1 rfl⟩⟩

/-- Claim C7: `navigate("jump")` without an index and `navigate` with any
unrecognized direction raise the invalid-argument `ValueError`, leaving
the state unchanged; every other navigation input succeeds, so no other
condition is ever raised (the remaining State Store operations are total
and return normally on all inputs). -/
theorem C7_navigate_error_paths (s : SMState) (d : String) (i : Option Int) :
    navigate s "jump" none =
      Except.error "Index required for \x27jump\x27 navigation" ∧
    navStep s "jump" none = s ∧
    (d ≠ "next" → d ≠ "prev" → d ≠ "jump" →
      navigate s d i = Except.error ("Invalid direction: " ++ d) ∧
      navStep s d i = s) ∧
    (d = "next" ∨ d = "prev" ∨ (d = "jump" ∧ i ≠ none) →
      ∃ r, navigate s d i = Except.ok r) := by
  refine ⟨by simp [navigate], by simp [navStep, navigate], ?_, ?_⟩
  · intro h1 h2 h3
    constructor
    · simp [navigate, h1, h2, h3]
    · simp [navStep, navigate, h1, h2, h3]
  · rintro (h | h | ⟨h, hi⟩)
    · subst h
      exact ⟨_, rfl⟩
    · subst h
      exact ⟨_, rfl⟩
    · subst h
      cases i with
      | none => exact absurd rfl hi
      | some j => exact ⟨_, rfl⟩

/-- Witness for C7 with the unrecognized direction `sideways` and a
succeeding `next` call. -/
theorem C7_navigate_error_paths_witness :
    ("sideways" ≠ "next" ∧ "sideways" ≠ "prev" ∧ "sideways" ≠ "jump") ∧
    navigate { current := 2, total := 5 } "sideways" none =
      Except.error ("Invalid direction: " ++ "sideways") ∧
    navStep { current := 2, total := 5 } "sideways" none =
      { current := 2, total := 5 } ∧
    (∃ r, navigate { current := 2, total := 5 } "next" none = Except.ok r) := by
  have h := (C7_navigate_error_paths { current := 2, total := 5 } "sideways"
    none).2.2.1 (by decide) (by decide) (by decide)
  exact ⟨⟨by decide, by decide, by decide⟩, h.1, h.2,
    (C7_navigate_error_paths { current := 2, total := 5 } "next" none).2.2.2
      (Or.inl rfl)⟩

/-- Concrete two-tool registry used by the executor witnesses: one
handler that returns its argument, one that raises. -/
def sampleRegistry : ToolRegistry Nat Nat :=
  [("echo", fun n => Except.ok n), ("boom", fun _ => Except.error "kaboom")]

/-- Claim C5: `execute_tool` on a registered handler never propagates a
fault: a normal return becomes a status-`success` result carrying the
return value verbatim, and a raised exception becomes a status-`error`
result whose message wraps and preserves the original message text. -/
theorem C5_handler_fault_wrapped {α β : Type} (tools : ToolRegistry α β)
    (funcName funcId : String) (args : α) (f : α → Except String β)
    (h : List.lookup funcName tools = some f) :
    executeTool tools funcName funcId args =
      match f args with
      | Except.ok v =>
        { id := funcId, name := funcName, status := "success",
          error := none, data := some v }
      | Except.error e =>
        { id := funcId, name := funcName, status := "error",
          error := some ("Error executing tool function \x27" ++ funcName ++
            "\x27: " ++ e),
          data := none } := by
  unfold executeTool
  rw [h]

/-- Witness for C5: the `echo` handler succeeds with its argument, the
`boom` handler's raised message is preserved inside the error result. -/
theorem C5_handler_fault_wrapped_witness :
    List.lookup "echo" sampleRegistry = some (fun n => Except.ok n) ∧
    executeTool sampleRegistry "echo" "call-1" 5 =
      { id := "call-1", name := "echo", status := "success",
        error := none, data := some 5 } ∧
    executeTool sampleRegistry "boom" "call-2" 5 =
      { id := "call-2", name := "boom", status := "error",
        error := some ("Error executing tool function \x27" ++ "boom" ++
          "\x27: " ++ "kaboom"),
        data := none } := by
  refine ⟨rfl, ?_, ?_⟩
  · exact C5_handler_fault_wrapped sampleRegistry "echo" "call-1" 5 _ rfl
  · exact C5_handler_fault_wrapped sampleRegistry "boom" "call-2" 5 _ rfl

/-- Claim C6: `execute_tool` on an unregistered name returns a
status-`error` result with a non-empty message describing the unknown
tool; `executeTool` is total, so no exception reaches the caller. -/
theorem C6_unknown_tool {α β : Type} (tools : ToolRegistry α β)
    (funcName funcId : String) (args : α)
    (h : List.lookup funcName tools = none) :
    executeTool tools funcName funcId args =
      { id := funcId, name := funcName, status := "error",
        error := some ("Unknown tool function requested: \x27" ++ funcName ++
          "\x27 is not registered."),
        data := none } ∧
    ∃ m, (executeTool tools funcName funcId args).error = some m ∧
      0 < m.length := by
  have heq : executeTool tools funcName funcId args =
      { id := funcId, name := funcName, status := "error",
        error := some ("Unknown tool function requested: \x27" ++ funcName ++
          "\x27 is not registered."),
        data := none } := by
    unfold executeTool
    rw [h]
  refine ⟨heq, ⟨_, by rw [heq], ?_⟩⟩
  have h1 : 0 < ("Unknown tool function requested: \x27").length := by decide
  simp [String.length_append]
  omega

/-- Witness for C6 at an unregistered tool name. -/
theorem C6_unknown_tool_witness :
    List.lookup "missing" sampleRegistry = none ∧
    executeTool sampleRegistry "missing" "call-3" 7 =
      { id := "call-3", name := "missing", status := "error",
        error := some ("Unknown tool function requested: \x27" ++ "missing" ++
          "\x27 is not registered."),
        data := none } ∧
    ∃ m, (executeTool sampleRegistry "missing" "call-3" 7).error = some m ∧
      0 < m.length := by
  have h := C6_unknown_tool sampleRegistry "missing" "call-3" 7 rfl
  exact ⟨rfl, h.1, h.2⟩

/-- Helper: every gate value observed inside the tool-call batch body is
the value the body was entered with. -/
lemma runToolCallBody_observed (g : Bool) (send : StepOutcome) :
    ∀ (calls : List ToolCallSim) (b : Bool),
      b ∈ (runToolCallBody g send calls).1 → b = g := by
  intro calls
  induction calls with
  | nil =>
    intro b hb
    cases send <;> simp [runToolCallBody] at hb
  | cons c cs ih =>
    intro b hb
    cases hc : c.execStep with
    | raise m =>
      simp [runToolCallBody, hc] at hb
      exact hb
    | ok =>
      simp [runToolCallBody, hc] at hb
      rcases hb with h | h
      · exact h
      · exact ih b h

/-- Claim C8: `process_tool_calls` closes the interruption gate on entry
(every tool-call execution observes a closed gate) and the `finally`
block reopens it on every exit path, including when an execution step or
the tool-response send raises — the gate is open after the batch,
whatever the outcome. -/
theorem C8_gate_reopened (gateBefore : Bool) (calls : List ToolCallSim)
    (sendStep : StepOutcome) :
    (processToolCalls gateBefore calls sendStep).2.1 = true ∧
    (∀ b ∈ (processToolCalls gateBefore calls sendStep).1, b = false) := by
  constructor
  · rfl
  · intro b hb
    exact runToolCallBody_observed false sendStep calls b hb

/-- Witness for C8 with a raising execution step and a raising
tool-response send. -/
theorem C8_gate_reopened_witness :
    (processToolCalls true
      [{ execStep := StepOutcome.raise "handler failure",
         resultStep := StepOutcome.ok }] StepOutcome.ok).2.1 = true ∧
    false ∈ (processToolCalls true
      [{ execStep := StepOutcome.raise "handler failure",
         resultStep := StepOutcome.ok }] StepOutcome.ok).1 ∧
    (false : Bool) = false ∧
    (processToolCalls false [] (StepOutcome.raise "send failed")).2.1 = true :=
  ⟨(C8_gate_reopened true
      [{ execStep := StepOutcome.raise "handler failure",
         resultStep := StepOutcome.ok }] StepOutcome.ok).1,
   by decide,
   (C8_gate_reopened true
      [{ execStep := StepOutcome.raise "handler failure",
         resultStep := StepOutcome.ok }] StepOutcome.ok).2 false (by decide),
   (C8_gate_reopened false [] (StepOutcome.raise "send failed")).1⟩

/-- Counterexample to claim C9 as stated: pushing a chunk, then stopping
the processor, leaves an empty, unclosed queue — the next pop suspends
rather than failing with a queue-closed condition (`stop` only drains the
`asyncio.Queue`, which has no close notion). -/
theorem C9_counterexample :
    getAudioOutcome
      (stopProcessor (pushAll (startProcessor (fromWebsocket 100)) [[1]])) =
      PopOutcome.suspend ∧
    PopOutcome.suspend ≠ PopOutcome.closedError := by
  constructor
  · rfl
  · decide

/-- Amended claim C9: `pop` suspends until a chunk is available (it
returns the oldest chunk when the queue is non-empty and suspends when it
is empty); tearing the processor down drains the queue but closes
nothing, so a suspended or subsequent pop keeps suspending — no
queue-closed condition is ever produced (the consumer loop relies on its
own timeout instead). -/
theorem C9_pop_amended (s : WSAudioState) (m : AudioMsg) (q : List AudioMsg) :
    (s.queue = [] → getAudioOutcome s = PopOutcome.suspend) ∧
    (s.queue = m :: q →
      getAudioOutcome s = PopOutcome.chunk m { s with queue := q }) ∧
    (stopProcessor s).queue = [] ∧
    getAudioOutcome (stopProcessor s) = PopOutcome.suspend ∧
    getAudioOutcome s ≠ PopOutcome.closedError := by
  refine ⟨?_, ?_, rfl, rfl, ?_⟩
  · intro h
    simp [getAudioOutcome, h]
  · intro h
    simp [getAudioOutcome, h]
  · cases hq : s.queue <;> simp [getAudioOutcome, hq]

/-- Witness for the amended C9 on a concrete two-chunk processor. -/
theorem C9_pop_amended_witness :
    (pushAll (startProcessor (fromWebsocket 3)) [[4], [5]]).queue =
      packageAudioMsg [4] :: [packageAudioMsg [5]] ∧
    getAudioOutcome (pushAll (startProcessor (fromWebsocket 3)) [[4], [5]]) =
      PopOutcome.chunk (packageAudioMsg [4])
        { pushAll (startProcessor (fromWebsocket 3)) [[4], [5]] with
            queue := [packageAudioMsg [5]] } ∧
    getAudioOutcome
      (stopProcessor (pushAll (startProcessor (fromWebsocket 3)) [[4], [5]])) =
      PopOutcome.suspend :=
  ⟨rfl,
   (C9_pop_amended (pushAll (startProcessor (fromWebsocket 3)) [[4], [5]])
     (packageAudioMsg [4]) [packageAudioMsg [5]]).2.1 rfl,
   (C9_pop_amended (stopProcessor
     (pushAll (startProcessor (fromWebsocket 3)) [[4], [5]]))
     (packageAudioMsg [4]) []).1 rfl⟩

/-- Claim C10: the public `navigate_slide` tool treats the jump index as
1-based: a `jump` with index `i` reaches the State Store with backend
index `max(0, i-1)` and lands, after range clamping, on
`min(max(0, i-1), total-1)` when `total_slides > 0` (so index 1 lands on
internal slide 0), while `next` and `prev` pass the index argument
through unchanged. -/
theorem C10_wrapper_one_based (s : SMState) (i : Int) (j : Option Int) :
    navigateSlideWrapper s "jump" (some i) =
      navigateSlide s "jump" (some (max 0 (i - 1))) ∧
    (navigateSlideWrapper s "jump" (some i)).2.current =
      (if 0 < s.total then min (max 0 (i - 1)) (s.total - 1)
        else max 0 (i - 1)) ∧
    (navigateSlideWrapper s "jump" (some 1)).2.current = 0 ∧
    navigateSlideWrapper s "next" j = navigateSlide s "next" j ∧
    navigateSlideWrapper s "prev" j = navigateSlide s "prev" j := by
  refine ⟨rfl, ?_, ?_, ?_, ?_⟩
  · simp [navigateSlideWrapper, navigateSlide, navigate]
  · simp [navigateSlideWrapper, navigateSlide, navigate]
    omega
  · simp [navigateSlideWrapper]
  · simp [navigateSlideWrapper]
